import Mathlib

/-!
Shallow embedding of the evobattle core (src/src/models/stats.py and
src/src/models/evolution.py). Python ints are modelled as Int; Python
floats are modelled as exact rationals; Python `int()` conversion is
modelled as truncation toward zero (`pyInt`). Randomized operations take
the random draws as explicit arguments. The creature aggregate
(creature.py) and trait catalogue (trait.py) are not part of the sources;
the few pieces of them the evolution code touches are modelled from the
spec and marked as such.
-/

/-- Python `int(q)` on a rational value: truncation toward zero
(floor for non-negative arguments, ceiling for negative ones). -/
def pyInt (q : ℚ) : Int := if 0 ≤ q then ⌊q⌋ else ⌈q⌉

/-- Stats dataclass of stats.py (7 integer fields). -/
structure Stats where
  hp : Int
  max_hp : Int
  attack : Int
  defense : Int
  speed : Int
  special_attack : Int
  special_defense : Int

/-- The `Stats(...)` dataclass constructor including `__post_init__`,
which clamps `hp` down to `max_hp` when `hp > max_hp` (stats.py 36-39).
Arguments are in dataclass field order. -/
def mkStats (hp max_hp attack defense speed special_attack special_defense : Int) : Stats :=
  { hp := if max_hp < hp then max_hp else hp
    max_hp := max_hp
    attack := attack
    defense := defense
    speed := speed
    special_attack := special_attack
    special_defense := special_defense }

/-- StatModifier dataclass of stats.py (multipliers are floats, modelled
as rationals; bonuses and duration are ints). -/
structure StatModifier where
  name : String
  duration : Int
  attack_multiplier : ℚ
  attack_bonus : Int
  defense_multiplier : ℚ
  defense_bonus : Int
  speed_multiplier : ℚ
  speed_bonus : Int
  special_attack_multiplier : ℚ
  special_attack_bonus : Int
  special_defense_multiplier : ℚ
  special_defense_bonus : Int
  max_hp_multiplier : ℚ
  max_hp_bonus : Int

/-- Stats.apply_modifier (stats.py 53-73): each scalable stat becomes
`int(old * multiplier + bonus)`; `max_hp` likewise; `hp` is then set to
`int(new_max_hp * r)` where `r` is the pre-transform `hp / max_hp`
(1.0 when the pre-transform `max_hp` is not positive). The input is not
mutated; a new record is returned. -/
def Stats.apply_modifier (s : Stats) (m : StatModifier) : Stats :=
  let new_attack := pyInt ((s.attack : ℚ) * m.attack_multiplier + (m.attack_bonus : ℚ))
  let new_defense := pyInt ((s.defense : ℚ) * m.defense_multiplier + (m.defense_bonus : ℚ))
  let new_speed := pyInt ((s.speed : ℚ) * m.speed_multiplier + (m.speed_bonus : ℚ))
  let new_special_attack :=
    pyInt ((s.special_attack : ℚ) * m.special_attack_multiplier + (m.special_attack_bonus : ℚ))
  let new_special_defense :=
    pyInt ((s.special_defense : ℚ) * m.special_defense_multiplier + (m.special_defense_bonus : ℚ))
  let new_max_hp := pyInt ((s.max_hp : ℚ) * m.max_hp_multiplier + (m.max_hp_bonus : ℚ))
  let r : ℚ := if 0 < s.max_hp then (s.hp : ℚ) / (s.max_hp : ℚ) else 1
  { hp := pyInt ((new_max_hp : ℚ) * r)
    max_hp := new_max_hp
    attack := new_attack
    defense := new_defense
    speed := new_speed
    special_attack := new_special_attack
    special_defense := new_special_defense }

/-- Stats.heal (stats.py 75-87): raise hp by `amount`, capped at max_hp;
returns the amount actually healed together with the new state. -/
def Stats.heal (s : Stats) (amount : Int) : Int × Stats :=
  let new_hp := min (s.hp + amount) s.max_hp
  (new_hp - s.hp, { s with hp := new_hp })

/-- Stats.take_damage (stats.py 89-101): lower hp by `amount`, floored at
0; returns the damage actually taken together with the new state. -/
def Stats.take_damage (s : Stats) (amount : Int) : Int × Stats :=
  let new_hp := max 0 (s.hp - amount)
  (s.hp - new_hp, { s with hp := new_hp })

/-- Stats.is_alive (stats.py 103-105). -/
def Stats.is_alive (s : Stats) : Bool := 0 < s.hp

/-- StatGrowth of stats.py (per-level growth rates are floats, modelled
as rationals; the curve is a tag string). -/
structure StatGrowth where
  hp_growth : ℚ
  attack_growth : ℚ
  defense_growth : ℚ
  speed_growth : ℚ
  special_attack_growth : ℚ
  special_defense_growth : ℚ
  growth_curve : String

/-- StatGrowth._get_growth_multiplier (stats.py 269-285): curve-tag
lookup with default 1.0 for unknown tags. -/
def StatGrowth.get_growth_multiplier (sg : StatGrowth) : ℚ :=
  if sg.growth_curve = ("slow") then 4/5
  else if sg.growth_curve = ("medium_slow") then 9/10
  else if sg.growth_curve = ("medium_fast") then 1
  else if sg.growth_curve = ("fast") then 6/5
  else 1

/-- StatGrowth.calculate_stats_at_level (stats.py 246-267): each field is
`int(base.field + rate * (level - 1) * curve_multiplier)`; both `hp` and
`max_hp` are computed from `base.max_hp` with the hp rate. The result
goes through the `Stats(...)` constructor. -/
def StatGrowth.calculate_stats_at_level (sg : StatGrowth) (base_stats : Stats) (level : Int) : Stats :=
  let growth_multiplier := sg.get_growth_multiplier
  mkStats
    (pyInt ((base_stats.max_hp : ℚ) + sg.hp_growth * ((level : ℚ) - 1) * growth_multiplier))
    (pyInt ((base_stats.max_hp : ℚ) + sg.hp_growth * ((level : ℚ) - 1) * growth_multiplier))
    (pyInt ((base_stats.attack : ℚ) + sg.attack_growth * ((level : ℚ) - 1) * growth_multiplier))
    (pyInt ((base_stats.defense : ℚ) + sg.defense_growth * ((level : ℚ) - 1) * growth_multiplier))
    (pyInt ((base_stats.speed : ℚ) + sg.speed_growth * ((level : ℚ) - 1) * growth_multiplier))
    (pyInt ((base_stats.special_attack : ℚ)
      + sg.special_attack_growth * ((level : ℚ) - 1) * growth_multiplier))
    (pyInt ((base_stats.special_defense : ℚ)
      + sg.special_defense_growth * ((level : ℚ) - 1) * growth_multiplier))

/-- Modelled from the spec: the trait value type of the missing
trait.py - a name, a description, a type tag, three float modifiers
(strength/speed/defense) and a rarity tag, exactly the fields the
genetics code of evolution.py reads and copies. -/
structure Trait where
  name : String
  description : String
  trait_type : String
  strength_modifier : ℚ
  speed_modifier : ℚ
  defense_modifier : ℚ
  rarity : String

/-- Modelled from the spec: the species template ("CreatureType") of the
missing creature.py - name, base stats, growth profile, tags and an
informational evolution stage; the evolution code reads `name`,
`base_stats` and `stat_growth`. -/
structure CreatureType where
  name : String
  description : String
  base_stats : Stats
  stat_growth : StatGrowth
  type_tags : List String
  evolution_stage : Int

/-- Modelled from the spec: the creature aggregate of the missing
creature.py, restricted to the attribute state the evolution and
genetics code reads and writes (species reference, level, base stats,
current effective stats, traits, energy bookkeeping). -/
structure Creature where
  name : String
  creature_type : CreatureType
  level : Int
  base_stats : Stats
  stats : Stats
  traits : List Trait
  energy : Int
  max_energy : Int

/-- Modelled from the spec: Creature.has_trait of the missing
creature.py - exact, case-sensitive name membership in the trait list of the
trait list. -/
def Creature.has_trait (c : Creature) (trait_name : String) : Bool :=
  c.traits.any (fun t => t.name == trait_name)

/-- EvolutionPath dataclass of evolution.py (conditions is an opaque
key/value map, carried but never evaluated). -/
structure EvolutionPath where
  from_type : String
  to_type : String
  min_level : Int
  required_traits : List String
  conditions : List (String × String)

/-- EvolutionPath.can_evolve (evolution.py 38-64): species name must
match `from_type`, level must reach `min_level`, and every required
trait must be present; `conditions` imposes no constraint. -/
def EvolutionPath.can_evolve (path : EvolutionPath) (creature : Creature) : Bool :=
  if creature.creature_type.name = path.from_type then
    if creature.level < path.min_level then false
    else path.required_traits.all (fun n => creature.has_trait n)
  else false

/-- GeneticsSystem of evolution.py: stateless except the configured
mutation rate (a probability, so it shapes distributions only; the
explicit random draws below are the oracle for every random call). -/
structure GeneticsSystem where
  mutation_rate : ℚ

/-- The `avg` local of GeneticsSystem._inherit_stats.average_stat
(evolution.py 157): Python floor division `(stat1 + stat2) // 2`. -/
def average_stat_avg (stat1 stat2 : Int) : Int := (stat1 + stat2).fdiv 2

/-- Lower bound of the `random.randint(-avg // 10, avg // 10)` draw in
average_stat (evolution.py 158): Python parses `-avg // 10` as
`(-avg) // 10`, i.e. floor division of the negated average. -/
def average_stat_lo (stat1 stat2 : Int) : Int := (-(average_stat_avg stat1 stat2)).fdiv 10

/-- Upper bound of the `random.randint(-avg // 10, avg // 10)` draw in
average_stat (evolution.py 158). -/
def average_stat_hi (stat1 stat2 : Int) : Int := (average_stat_avg stat1 stat2).fdiv 10

/-- GeneticsSystem._inherit_stats.average_stat (evolution.py 155-159)
with the random draw `variation` passed explicitly:
`max(1, avg + variation)`. -/
def average_stat (stat1 stat2 variation : Int) : Int :=
  max 1 (average_stat_avg stat1 stat2 + variation)

/-- The seven `random.randint` draws made by one _inherit_stats call, in
the order the `Stats(...)` keyword arguments are evaluated
(evolution.py 161-169), plus the parent pick and per-trait draws used by
breed. -/
structure BreedChoices where
  pickParent2 : Bool
  v_max_hp : Int
  v_hp : Int
  v_attack : Int
  v_defense : Int
  v_speed : Int
  v_special_attack : Int
  v_special_defense : Int
  traitChoices : List (Bool × Bool × ℚ)

/-- GeneticsSystem._inherit_stats (evolution.py 140-169): each of the 7
fields is an independent average_stat call on the base stats of the parents;
both `max_hp` and `hp` average the parental `max_hp` values, each with
its own randint draw. The result goes through the `Stats(...)`
constructor (which clamps `hp` down to `max_hp`). -/
def inherit_stats (parent1 parent2 : Creature) (ch : BreedChoices) : Stats :=
  let p1_stats := parent1.base_stats
  let p2_stats := parent2.base_stats
  mkStats
    (average_stat p1_stats.max_hp p2_stats.max_hp ch.v_hp)
    (average_stat p1_stats.max_hp p2_stats.max_hp ch.v_max_hp)
    (average_stat p1_stats.attack p2_stats.attack ch.v_attack)
    (average_stat p1_stats.defense p2_stats.defense ch.v_defense)
    (average_stat p1_stats.speed p2_stats.speed ch.v_speed)
    (average_stat p1_stats.special_attack p2_stats.special_attack ch.v_special_attack)
    (average_stat p1_stats.special_defense p2_stats.special_defense ch.v_special_defense)

/-- GeneticsSystem._mutate_trait (evolution.py 205-226) with the single
`random.uniform(0.9, 1.1)` draw passed explicitly: one shared factor
scales all three modifiers; name and description are decorated;
trait_type and rarity are copied unchanged. -/
def mutate_trait (t : Trait) (mutation_factor : ℚ) : Trait :=
  { name := t.name ++ (" (Mutated)")
    description := t.description ++ (" - Mutated variant")
    trait_type := t.trait_type
    strength_modifier := t.strength_modifier * mutation_factor
    speed_modifier := t.speed_modifier * mutation_factor
    defense_modifier := t.defense_modifier * mutation_factor
    rarity := t.rarity }

/-- The random draws of one trait in GeneticsSystem._inherit_traits: whether
the trait is inherited (the `random.random() < 0.5` test), whether it
then mutates (the `random.random() < self.mutation_rate` test), and the
mutation factor used if it does. -/
def inherit_pick (t : Trait) (c : Bool × Bool × ℚ) : Option Trait :=
  if c.1 then (if c.2.1 then some (mutate_trait t c.2.2) else some t) else none

/-- The dedup-by-first-occurrence pass of GeneticsSystem._inherit_traits
(evolution.py 195-203): keep the first trait of each name, left to
right. -/
def dedup_first : List Trait → List String → List Trait
  | [], _ => []
  | t :: ts, seen =>
    if seen.contains t.name then dedup_first ts seen
    else t :: dedup_first ts (t.name :: seen)

/-- GeneticsSystem._inherit_traits (evolution.py 171-203): walk the
concatenated parent1-then-parent2 trait pool with the per-trait draws,
then deduplicate by name keeping the first occurrence. -/
def inherit_traits (pool : List Trait) (cs : List (Bool × Bool × ℚ)) : List Trait :=
  dedup_first ((List.zip pool cs).filterMap (fun pc => inherit_pick pc.1 pc.2)) []

/-- The keyword arguments evolution.py passes to the `Creature(...)`
constructor in breed (evolution.py 130-136); the constructor itself
lives in the missing creature.py, so the bundle is the faithful output
of the code under verification. -/
structure BreedOffspring where
  name : String
  creature_type : CreatureType
  level : Int
  base_stats : Stats
  traits : List Trait

/-- GeneticsSystem.breed (evolution.py 103-138) with the random draws
passed explicitly: species from one parent picked at random, inherited
stats, inherited traits, level fixed at 1. -/
def GeneticsSystem.breed (_gs : GeneticsSystem) (parent1 parent2 : Creature)
    (offspring_name : String) (ch : BreedChoices) : BreedOffspring :=
  { name := offspring_name
    creature_type := if ch.pickParent2 then parent2.creature_type else parent1.creature_type
    level := 1
    base_stats := inherit_stats parent1 parent2 ch
    traits := inherit_traits (parent1.traits ++ parent2.traits) ch.traitChoices }

/-- EvolutionSystem of evolution.py: an ordered list of evolution paths
and a name-keyed species registry (a Python dict; modelled as an
association list whose head wins, with registration prepending). -/
structure EvolutionSystem where
  evolution_paths : List EvolutionPath
  creature_types : List (String × CreatureType)

/-- EvolutionSystem.register_creature_type (evolution.py 246-253):
upsert by name (prepend + first-match lookup gives last-write-wins). -/
def EvolutionSystem.register_creature_type (sys : EvolutionSystem) (ct : CreatureType) :
    EvolutionSystem :=
  { sys with creature_types := (ct.name, ct) :: sys.creature_types }

/-- EvolutionSystem.add_evolution_path (evolution.py 255-262): append,
preserving registration order. -/
def EvolutionSystem.add_evolution_path (sys : EvolutionSystem) (p : EvolutionPath) :
    EvolutionSystem :=
  { sys with evolution_paths := sys.evolution_paths ++ [p] }

/-- EvolutionSystem.get_available_evolutions (evolution.py 264-278):
registered paths whose can_evolve holds, in registration order. -/
def EvolutionSystem.get_available_evolutions (sys : EvolutionSystem) (c : Creature) :
    List EvolutionPath :=
  sys.evolution_paths.filter (fun p => p.can_evolve c)

/-- EvolutionSystem.can_evolve (evolution.py 280-290). -/
def EvolutionSystem.can_evolve (sys : EvolutionSystem) (c : Creature) : Bool :=
  0 < (sys.get_available_evolutions c).length

/-- The creature state after a successful evolution (evolution.py
325-338): species replaced, base stats recomputed by the growth
profile of the target species at the current level of the creature, effective stats
recomputed by the effective-stats pipeline `eff` of the creature (a
collaborator of the missing creature.py, abstracted as a parameter),
then hp raised to the new max_hp and energy refilled. -/
def evolved_creature (eff : Creature → Stats) (c : Creature) (target : CreatureType) : Creature :=
  let new_base := target.stat_growth.calculate_stats_at_level target.base_stats c.level
  let c1 := { c with creature_type := target, base_stats := new_base }
  let s := eff c1
  { c1 with stats := { s with hp := s.max_hp }, energy := c.max_energy }

/-- The body of EvolutionSystem.evolve once a path has been chosen
(evolution.py 314-340): re-validate can_evolve, look up the target
species, and either fail with a message or perform the transition. -/
def EvolutionSystem.evolve_with (sys : EvolutionSystem) (eff : Creature → Stats) (c : Creature)
    (p : EvolutionPath) : (Bool × String) × Creature :=
  if p.can_evolve c then
    match sys.creature_types.lookup p.to_type with
    | none => ((false, ("Target type \x27" ++ p.to_type ++ "\x27 not found")), c)
    | some target =>
      ((true, ("Evolved from " ++ c.creature_type.name ++ " to " ++ target.name ++ "!")),
        evolved_creature eff c target)
  else ((false, ("Evolution conditions not met")), c)

/-- EvolutionSystem.evolve (evolution.py 292-340), state-passing: the
pair is the Python `(success, message)` return value and the second
component is the (possibly mutated) creature. With no explicit path the
first available path is auto-selected; with none available the call
fails with the no-paths message. -/
def EvolutionSystem.evolve (sys : EvolutionSystem) (eff : Creature → Stats) (c : Creature) :
    Option EvolutionPath → (Bool × String) × Creature
  | none =>
    match sys.get_available_evolutions c with
    | [] => ((false, ("No evolution paths available")), c)
    | p :: _ => sys.evolve_with eff c p
  | some p => sys.evolve_with eff c p

/-- Sample stats at the dataclass defaults of stats.py. -/
def statsDefault : Stats := mkStats 100 100 10 10 10 10 10

/-- A damaged stat vector: hp 50 of 100. -/
def statsDamaged : Stats := mkStats 50 100 10 10 10 10 10

/-- A stat vector with attack 1, used to exercise the truncation
behaviour of apply_modifier. -/
def statsAttackOne : Stats := mkStats 10 10 1 10 10 10 10

/-- A debuff modifier: halve attack and subtract 1, everything else
neutral. -/
def modifierHalfAttack : StatModifier :=
  { name := ("Debuff")
    duration := -1
    attack_multiplier := 1/2
    attack_bonus := -1
    defense_multiplier := 1
    defense_bonus := 0
    speed_multiplier := 1
    speed_bonus := 0
    special_attack_multiplier := 1
    special_attack_bonus := 0
    special_defense_multiplier := 1
    special_defense_bonus := 0
    max_hp_multiplier := 1
    max_hp_bonus := 0 }

/-- A growth profile with the stats.py default integer-valued rates and
the default medium_fast curve. -/
def growthDefault : StatGrowth :=
  { hp_growth := 10
    attack_growth := 2
    defense_growth := 2
    speed_growth := 2
    special_attack_growth := 2
    special_defense_growth := 2
    growth_curve := ("medium_fast") }

/-- A profile with tiny attack growth on the fast curve. -/
def growthTinyFast : StatGrowth :=
  { hp_growth := 10
    attack_growth := 1/10
    defense_growth := 2
    speed_growth := 2
    special_attack_growth := 2
    special_defense_growth := 2
    growth_curve := ("fast") }

/-- The same tiny rates on the slow curve. -/
def growthTinySlow : StatGrowth := { growthTinyFast with growth_curve := ("slow") }

/-- A sample trait. -/
def traitSwift : Trait :=
  { name := ("Swift")
    description := ("Moves quickly")
    trait_type := ("physical")
    strength_modifier := 1
    speed_modifier := 2
    defense_modifier := 3
    rarity := ("common") }

/-- A sample base species. -/
def newbornType : CreatureType :=
  { name := ("Newborn")
    description := ("A newly hatched creature")
    base_stats := mkStats 80 80 8 8 10 10 10
    stat_growth := { growthDefault with hp_growth := 12 }
    type_tags := [("normal")]
    evolution_stage := 0 }

/-- A sample evolved species with its own growth profile. -/
def warriorType : CreatureType :=
  { name := ("Warrior")
    description := ("A creature that evolved focusing on strength")
    base_stats := mkStats 100 100 15 12 8 10 10
    stat_growth := { growthDefault with hp_growth := 15, attack_growth := 3 }
    type_tags := [("normal"), ("fighter")]
    evolution_stage := 1 }

/-- The Newborn-to-Warrior evolution path. -/
def pathNewbornWarrior : EvolutionPath :=
  { from_type := ("Newborn")
    to_type := ("Warrior")
    min_level := 10
    required_traits := []
    conditions := [] }

/-- A registry holding the Warrior species and the Newborn-to-Warrior
path. -/
def sampleSystem : EvolutionSystem :=
  { evolution_paths := [pathNewbornWarrior]
    creature_types := [(("Warrior"), warriorType)] }

/-- An empty registry. -/
def emptySystem : EvolutionSystem := { evolution_paths := [], creature_types := [] }

/-- A level-10 Newborn creature ready to evolve. -/
def fighterCreature : Creature :=
  { name := ("Fighter")
    creature_type := newbornType
    level := 10
    base_stats := mkStats 80 80 8 8 10 10 10
    stats := mkStats 80 80 8 8 10 10 10
    traits := []
    energy := 40
    max_energy := 100 }

/-- A sample effective-stats pipeline standing in for the abstract
creature.py collaborator in witnesses. -/
def effBase : Creature → Stats := fun c => c.base_stats

/-- A damaged parent (current hp 1) whose base max_hp is 100. -/
def parentDamaged1 : Creature :=
  { name := ("P1")
    creature_type := newbornType
    level := 5
    base_stats := mkStats 1 100 20 15 10 10 10
    stats := mkStats 1 100 20 15 10 10 10
    traits := []
    energy := 50
    max_energy := 100 }

/-- A damaged parent (current hp 1) whose base max_hp is 120. -/
def parentDamaged2 : Creature :=
  { name := ("P2")
    creature_type := warriorType
    level := 5
    base_stats := mkStats 1 120 15 20 10 10 10
    stats := mkStats 1 120 15 20 10 10 10
    traits := []
    energy := 50
    max_energy := 100 }

/-- A genetics service at the default mutation rate of evolution.py. -/
def geneticsDefault : GeneticsSystem := { mutation_rate := 1/10 }

/-- Random draws for one breed call: max_hp drawn at +11, hp drawn at
-11, every other stat at 0, no traits. Both hp draws are inside the
randint bounds for parents with max_hp 100 and 120 (avg 110, bounds
-11 to 11). -/
def breedDrawsSplit : BreedChoices :=
  { pickParent2 := false
    v_max_hp := 11
    v_hp := -11
    v_attack := 0
    v_defense := 0
    v_speed := 0
    v_special_attack := 0
    v_special_defense := 0
    traitChoices := [] }

/-- The offspring bundle produced by breed under those draws. -/
def offspringSplit : BreedOffspring :=
  geneticsDefault.breed parentDamaged1 parentDamaged2 ("Child") breedDrawsSplit

theorem pyInt_intCast (n : Int) : pyInt ((n : ℚ)) = n := by
  unfold pyInt
  split
  · exact Int.floor_intCast n
  · exact Int.ceil_intCast n

theorem pyInt_eq_floor_of_nonneg {q : ℚ} (h : 0 ≤ q) : pyInt q = ⌊q⌋ := by
  unfold pyInt
  exact if_pos h

theorem pyInt_mono {q r : ℚ} (h : q ≤ r) : pyInt q ≤ pyInt r := by
  unfold pyInt
  split
  · rename_i hq
    rw [if_pos (le_trans hq h)]
    exact Int.floor_mono h
  · rename_i hq
    split
    · rename_i hr
      have h1 : ⌈q⌉ ≤ 0 := Int.ceil_le.mpr (by exact_mod_cast le_of_lt (not_le.mp hq))
      exact le_trans h1 (Int.floor_nonneg.mpr hr)
    · exact Int.ceil_mono h

theorem pyInt_lt_of_add_one_le {q r : ℚ} (hq : 0 ≤ q) (h : q + 1 ≤ r) : pyInt q < pyInt r := by
  have hr : (0 : ℚ) ≤ r := le_trans (by linarith) h
  rw [pyInt_eq_floor_of_nonneg hq, pyInt_eq_floor_of_nonneg hr]
  have h2 : ⌊q + 1⌋ ≤ ⌊r⌋ := Int.floor_mono h
  rw [Int.floor_add_one] at h2
  omega

theorem pyInt_eq_int {q : ℚ} {n : Int} (h0 : 0 ≤ q) (h1 : (n : ℚ) ≤ q) (h2 : q < n + 1) :
    pyInt q = n := by
  rw [pyInt_eq_floor_of_nonneg h0]
  exact Int.floor_eq_iff.mpr ⟨h1, by exact_mod_cast h2⟩

theorem calculate_attack_eq (sg : StatGrowth) (base : Stats) (level : Int) :
    (sg.calculate_stats_at_level base level).attack =
      pyInt ((base.attack : ℚ) + sg.attack_growth * ((level : ℚ) - 1) * sg.get_growth_multiplier) :=
  rfl

theorem calculate_stats_at_level_one (sg : StatGrowth) (base : Stats) :
    sg.calculate_stats_at_level base 1 =
      mkStats base.max_hp base.max_hp base.attack base.defense base.speed
        base.special_attack base.special_defense := by
  unfold StatGrowth.calculate_stats_at_level
  norm_num [pyInt_intCast]

theorem evolve_none_eq (sys : EvolutionSystem) (eff : Creature → Stats) (c : Creature) :
    sys.evolve eff c none =
      (match sys.get_available_evolutions c with
        | [] => ((false, ("No evolution paths available")), c)
        | p :: _ => sys.evolve_with eff c p) :=
  rfl

theorem evolve_some_eq (sys : EvolutionSystem) (eff : Creature → Stats) (c : Creature)
    (p : EvolutionPath) : sys.evolve eff c (some p) = sys.evolve_with eff c p :=
  rfl

theorem evolve_none_cons (sys : EvolutionSystem) (eff : Creature → Stats) (c : Creature)
    {q : EvolutionPath} {rest : List EvolutionPath}
    (hav : sys.get_available_evolutions c = q :: rest) :
    sys.evolve eff c none = sys.evolve_with eff c q := by
  rw [evolve_none_eq, hav]

theorem evolve_with_not_can (sys : EvolutionSystem) (eff : Creature → Stats) (c : Creature)
    {p : EvolutionPath} (h : p.can_evolve c = false) :
    sys.evolve_with eff c p = ((false, ("Evolution conditions not met")), c) := by
  simp [EvolutionSystem.evolve_with, h]

theorem evolve_with_no_target (sys : EvolutionSystem) (eff : Creature → Stats) (c : Creature)
    {p : EvolutionPath} (hcan : p.can_evolve c = true)
    (hlook : sys.creature_types.lookup p.to_type = none) :
    sys.evolve_with eff c p =
      ((false, ("Target type \x27" ++ p.to_type ++ "\x27 not found")), c) := by
  simp [EvolutionSystem.evolve_with, hcan, hlook]

theorem evolve_with_success (sys : EvolutionSystem) (eff : Creature → Stats) (c : Creature)
    {p : EvolutionPath} {target : CreatureType} (hcan : p.can_evolve c = true)
    (hlook : sys.creature_types.lookup p.to_type = some target) :
    sys.evolve_with eff c p =
      ((true, ("Evolved from " ++ c.creature_type.name ++ " to " ++ target.name ++ "!")),
        evolved_creature eff c target) := by
  simp [EvolutionSystem.evolve_with, hcan, hlook]

theorem mem_available_can_evolve (sys : EvolutionSystem) (c : Creature) {p : EvolutionPath}
    (h : p ∈ sys.get_available_evolutions c) : p.can_evolve c = true := by
  have h2 := List.of_mem_filter h
  simpa using h2

/-- Claim C7: for every stat vector and every amount of at least 0,
take_damage returns min(amount, hp), the returned actual damage plus the
remaining hp equals the original hp, and hp is never negative afterward
(over-damage is clamped, not an error). -/
theorem take_damage_spec (s : Stats) (amount : Int) (h : 0 ≤ amount) :
    (s.take_damage amount).1 = min amount s.hp ∧
    (s.take_damage amount).1 + (s.take_damage amount).2.hp = s.hp ∧
    0 ≤ (s.take_damage amount).2.hp := by
  unfold Stats.take_damage
  refine ⟨?_, ?_, ?_⟩ <;> simp <;> omega

/-- Claim C7 witness: the take_damage contract evaluated on the default
stats and an over-damage amount of 150. -/
theorem take_damage_spec_witness :
    (statsDefault.take_damage 150).1 = min 150 statsDefault.hp :=
  (take_damage_spec statsDefault 150 (by decide)).1

/-- Claim C8: a trait mutated during breeding has its three modifiers
all scaled by the one shared random factor from the interval 0.9 to 1.1
that the mutation event drew, its name suffixed with " (Mutated)", and
its trait_type and rarity copied unchanged. -/
theorem mutate_trait_spec (t : Trait) (m : ℚ) (h1 : 9/10 ≤ m) (h2 : m ≤ 11/10) :
    (mutate_trait t m).strength_modifier = t.strength_modifier * m ∧
    (mutate_trait t m).speed_modifier = t.speed_modifier * m ∧
    (mutate_trait t m).defense_modifier = t.defense_modifier * m ∧
    (mutate_trait t m).name = t.name ++ (" (Mutated)") ∧
    (mutate_trait t m).trait_type = t.trait_type ∧
    (mutate_trait t m).rarity = t.rarity := by
  unfold mutate_trait
  exact ⟨rfl, rfl, rfl, rfl, rfl, rfl⟩

/-- Claim C8 witness: the mutation contract evaluated on a sample trait
at factor 1. -/
theorem mutate_trait_spec_witness :
    (mutate_trait traitSwift 1).name = traitSwift.name ++ (" (Mutated)") :=
  (mutate_trait_spec traitSwift 1 (by norm_num) (by norm_num)).2.2.2.1

/-- Claim C3 counterexample: at level 1 the computed hp is the base
max_hp of the base vector, not its current hp, so a damaged base vector (hp 50 of
100) is not reproduced exactly in the hp field. -/
theorem stats_at_level_one_counterexample :
    (growthDefault.calculate_stats_at_level statsDamaged 1).hp ≠ statsDamaged.hp := by
  rw [calculate_stats_at_level_one]
  decide

/-- Claim C3 (amended): for every base vector and every growth curve
tag, calculate_stats_at_level at level 1 reproduces the base vector in
max_hp and the five scalable stats (the per-level growth term vanishes),
while hp is set to the max_hp of the base vector (a full-heal snapshot); the
hp field therefore equals the base hp exactly when the base vector is
undamaged. -/
theorem stats_at_level_one_spec (sg : StatGrowth) (base : Stats) :
    (sg.calculate_stats_at_level base 1).max_hp = base.max_hp ∧
    (sg.calculate_stats_at_level base 1).attack = base.attack ∧
    (sg.calculate_stats_at_level base 1).defense = base.defense ∧
    (sg.calculate_stats_at_level base 1).speed = base.speed ∧
    (sg.calculate_stats_at_level base 1).special_attack = base.special_attack ∧
    (sg.calculate_stats_at_level base 1).special_defense = base.special_defense ∧
    (sg.calculate_stats_at_level base 1).hp = base.max_hp := by
  rw [calculate_stats_at_level_one]
  unfold mkStats
  simp

/-- Claim C4 counterexample: Python int() truncates toward zero, so with
attack 1, multiplier 0.5 and bonus -1 the new attack is int(-0.5) = 0,
not floor(-0.5) = -1 as the floor formula of the claim demands. -/
theorem apply_modifier_floor_counterexample :
    (statsAttackOne.apply_modifier modifierHalfAttack).attack ≠
      ⌊(statsAttackOne.attack : ℚ) * modifierHalfAttack.attack_multiplier
        + (modifierHalfAttack.attack_bonus : ℚ)⌋ := by
  have h1 : (statsAttackOne.apply_modifier modifierHalfAttack).attack = pyInt (-(1/2) : ℚ) := by
    have h3 : ((statsAttackOne.attack : ℚ) * modifierHalfAttack.attack_multiplier
        + (modifierHalfAttack.attack_bonus : ℚ)) = (-(1/2) : ℚ) := by
      norm_num [statsAttackOne, modifierHalfAttack, mkStats]
    calc (statsAttackOne.apply_modifier modifierHalfAttack).attack
        = pyInt ((statsAttackOne.attack : ℚ) * modifierHalfAttack.attack_multiplier
            + (modifierHalfAttack.attack_bonus : ℚ)) := rfl
      _ = pyInt (-(1/2) : ℚ) := by rw [h3]
  have h2 : pyInt (-(1/2) : ℚ) = 0 := by
    unfold pyInt
    rw [if_neg (by norm_num)]
    rw [show ((0:Int) = ((0:Int))) from rfl]
    have : ⌈(-(1/2) : ℚ)⌉ = 0 := by
      rw [Int.ceil_eq_iff] <;> norm_num
    exact this
  have h4 : ⌊(statsAttackOne.attack : ℚ) * modifierHalfAttack.attack_multiplier
      + (modifierHalfAttack.attack_bonus : ℚ)⌋ = -1 := by
    have h3 : ((statsAttackOne.attack : ℚ) * modifierHalfAttack.attack_multiplier
        + (modifierHalfAttack.attack_bonus : ℚ)) = (-(1/2) : ℚ) := by
      norm_num [statsAttackOne, modifierHalfAttack, mkStats]
    rw [h3, Int.floor_eq_iff] <;> norm_num
  rw [h1, h2, h4]
  decide

/-- Claim C4 (amended): apply_modifier returns a new vector (the input
is a value and is left untouched) in which each of the 6 scalable stats
equals the Python int() truncation toward zero of old * multiplier +
bonus - which coincides with floor whenever that quantity is
non-negative - max_hp is recomputed the same way, and hp is set to the
truncation of new_max_hp times the pre-transform hp/max_hp (the quotient
taken as 1 when the pre-transform max_hp is not positive). -/
theorem apply_modifier_spec (s : Stats) (m : StatModifier) :
    (s.apply_modifier m).attack
        = pyInt ((s.attack : ℚ) * m.attack_multiplier + (m.attack_bonus : ℚ)) ∧
    (s.apply_modifier m).defense
        = pyInt ((s.defense : ℚ) * m.defense_multiplier + (m.defense_bonus : ℚ)) ∧
    (s.apply_modifier m).speed
        = pyInt ((s.speed : ℚ) * m.speed_multiplier + (m.speed_bonus : ℚ)) ∧
    (s.apply_modifier m).special_attack
        = pyInt ((s.special_attack : ℚ) * m.special_attack_multiplier
            + (m.special_attack_bonus : ℚ)) ∧
    (s.apply_modifier m).special_defense
        = pyInt ((s.special_defense : ℚ) * m.special_defense_multiplier
            + (m.special_defense_bonus : ℚ)) ∧
    (s.apply_modifier m).max_hp
        = pyInt ((s.max_hp : ℚ) * m.max_hp_multiplier + (m.max_hp_bonus : ℚ)) ∧
    (s.apply_modifier m).hp
        = pyInt (((s.apply_modifier m).max_hp : ℚ)
            * (if 0 < s.max_hp then (s.hp : ℚ) / (s.max_hp : ℚ) else 1)) := by
  unfold Stats.apply_modifier
  exact ⟨rfl, rfl, rfl, rfl, rfl, rfl, rfl⟩

/-- Claim C1: evaluation of the breeding stat inheritance at parent stat
values 100 and 110 (avg 105). Because Python parses -avg // 10 as
(-avg) // 10, the randint lower bound is -11, outside the symmetric
interval of radius floor(avg/10) = 10 that both the claim and the
own docstring of the function (a plus-minus 10 percent variation) describe;
the draw -11 yields offspring stat 94, below the documented minimum
avg - 10 = 95. -/
theorem average_stat_bound_eval :
    average_stat_avg 100 110 = 105 ∧
    average_stat_lo 100 110 = -11 ∧
    average_stat_hi 100 110 = 10 ∧
    average_stat_lo 100 110 < -(average_stat_hi 100 110) ∧
    average_stat 100 110 (-11) = 94 ∧
    average_stat 100 110 (-11) < average_stat_avg 100 110 - average_stat_hi 100 110 := by
  refine ⟨by decide, by decide, by decide, by decide, by decide, by decide⟩

/-- Claim C2: evaluation of breed at parents with base max_hp 100 and
120 (both parents damaged to current hp 1) under in-range draws +11 for
the max_hp call and -11 for the hp call. Both offspring hp fields are
derived from the parental max_hp values as the claim says, but the two
fields come from two independent randint draws, so the offspring is
born damaged: hp 99 against max_hp 121. -/
theorem breed_split_draw_eval :
    average_stat_lo parentDamaged1.base_stats.max_hp parentDamaged2.base_stats.max_hp
        ≤ breedDrawsSplit.v_hp ∧
    breedDrawsSplit.v_max_hp
        ≤ average_stat_hi parentDamaged1.base_stats.max_hp parentDamaged2.base_stats.max_hp ∧
    offspringSplit.level = 1 ∧
    offspringSplit.base_stats.max_hp = 121 ∧
    offspringSplit.base_stats.hp = 99 ∧
    offspringSplit.base_stats.hp ≠ offspringSplit.base_stats.max_hp := by
  refine ⟨by decide, by decide, by decide, by decide, by decide, by decide⟩

/-- Claim C9 counterexample: with attack growth 0.1 and level 2, base
attack 10, the fast-curve attack int(10 + 0.1 * 1 * 1.2) = 10 equals the
slow-curve attack int(10 + 0.1 * 1 * 0.8) = 10, so strict domination
fails even though the level exceeds 1 and all rates are equal. -/
theorem fast_slow_counterexample :
    (growthTinyFast.calculate_stats_at_level statsDefault 2).attack = 10 ∧
    (growthTinySlow.calculate_stats_at_level statsDefault 2).attack = 10 := by
  constructor
  · rw [calculate_attack_eq]
    have hm : growthTinyFast.get_growth_multiplier = 6/5 := rfl
    have hx : ((statsDefault.attack : ℚ)
        + growthTinyFast.attack_growth * (((2 : Int) : ℚ) - 1) * growthTinyFast.get_growth_multiplier)
        = 253/25 := by
      rw [hm]
      norm_num [statsDefault, mkStats, growthTinyFast]
    rw [hx]
    exact pyInt_eq_int (by norm_num) (by norm_num) (by norm_num)
  · rw [calculate_attack_eq]
    have hm : growthTinySlow.get_growth_multiplier = 4/5 := rfl
    have hx : ((statsDefault.attack : ℚ)
        + growthTinySlow.attack_growth * (((2 : Int) : ℚ) - 1) * growthTinySlow.get_growth_multiplier)
        = 252/25 := by
      rw [hm]
      norm_num [statsDefault, mkStats, growthTinySlow, growthTinyFast]
    rw [hx]
    exact pyInt_eq_int (by norm_num) (by norm_num) (by norm_num)

/-- Claim C9 (amended): with non-negative base attack, non-negative
attack growth rate and level at least 1, the fast-curve attack is
always at least the slow-curve attack at the same level with all other
parameters equal; the domination is strict whenever the accumulated
growth attack_growth * (level - 1) reaches 5/2 (so that the 0.4 curve
gap exceeds one integer step), but mere level > 1 does not suffice: a
zero or tiny rate leaves the truncated values equal. -/
theorem fast_dominates_slow (sg : StatGrowth) (base : Stats) (level : Int)
    (hb : 0 ≤ base.attack) (hg : 0 ≤ sg.attack_growth) (hl : 1 ≤ level) :
    (({ sg with growth_curve := ("slow") }).calculate_stats_at_level base level).attack ≤
      (({ sg with growth_curve := ("fast") }).calculate_stats_at_level base level).attack ∧
    ((5 : ℚ)/2 ≤ sg.attack_growth * ((level : ℚ) - 1) →
      (({ sg with growth_curve := ("slow") }).calculate_stats_at_level base level).attack <
        (({ sg with growth_curve := ("fast") }).calculate_stats_at_level base level).attack) := by
  have hms : ({ sg with growth_curve := ("slow") }).get_growth_multiplier = 4/5 := rfl
  have hmf : ({ sg with growth_curve := ("fast") }).get_growth_multiplier = 6/5 := rfl
  have hx : (0 : ℚ) ≤ (level : ℚ) - 1 := by
    have : (1 : ℚ) ≤ (level : ℚ) := by exact_mod_cast hl
    linarith
  have hgx : (0 : ℚ) ≤ sg.attack_growth * ((level : ℚ) - 1) := mul_nonneg hg hx
  have hbq : (0 : ℚ) ≤ (base.attack : ℚ) := by exact_mod_cast hb
  rw [calculate_attack_eq, calculate_attack_eq, hms, hmf]
  constructor
  · exact pyInt_mono (by nlinarith)
  · intro hbig
    apply pyInt_lt_of_add_one_le
    · nlinarith
    · nlinarith

/-- Claim C9 witness: the fast-versus-slow comparison evaluated at the
default rates (attack growth 2), base attack 10, level 5. -/
theorem fast_dominates_slow_witness :
    (({ growthDefault with growth_curve := ("slow") }).calculate_stats_at_level statsDefault 5).attack ≤
      (({ growthDefault with growth_curve := ("fast") }).calculate_stats_at_level statsDefault 5).attack :=
  (fast_dominates_slow growthDefault statsDefault 5 (by decide) (by norm_num [growthDefault]) (by decide)).1

/-- Claim C5: for every creature satisfying a registered evolution path
whose target species is registered, evolve succeeds: the species
reference is replaced by the target, base stats are recomputed via the
growth profile of the target species itself at the current creature level
(level is not reset), current hp is set equal to the new max_hp, energy
is refilled to max energy, and the message names both the old and the
new species. The effective-stats pipeline of the external creature
aggregate is an arbitrary parameter, so the conclusion holds for every
collaborator. -/
theorem evolve_success_spec (sys : EvolutionSystem) (eff : Creature → Stats) (c : Creature)
    (p : EvolutionPath) (target : CreatureType)
    (hmem : p ∈ sys.evolution_paths)
    (hcan : p.can_evolve c = true)
    (hlook : sys.creature_types.lookup p.to_type = some target) :
    (sys.evolve eff c (some p)).1.1 = true ∧
    (sys.evolve eff c (some p)).1.2
        = ("Evolved from " ++ c.creature_type.name ++ " to " ++ target.name ++ "!") ∧
    (sys.evolve eff c (some p)).2.creature_type = target ∧
    (sys.evolve eff c (some p)).2.base_stats
        = target.stat_growth.calculate_stats_at_level target.base_stats c.level ∧
    (sys.evolve eff c (some p)).2.level = c.level ∧
    (sys.evolve eff c (some p)).2.stats.hp = (sys.evolve eff c (some p)).2.stats.max_hp ∧
    (sys.evolve eff c (some p)).2.energy = c.max_energy := by
  rw [evolve_some_eq, evolve_with_success sys eff c hcan hlook]
  refine ⟨rfl, rfl, ?_, ?_, ?_, ?_, ?_⟩ <;> simp [evolved_creature]

/-- Claim C5 witness: the success contract evaluated at a level-10
Newborn evolving to the registered Warrior species. -/
theorem evolve_success_spec_witness :
    (sampleSystem.evolve effBase fighterCreature (some pathNewbornWarrior)).1.1 = true :=
  (evolve_success_spec sampleSystem effBase fighterCreature pathNewbornWarrior warriorType
    (by simp [sampleSystem]) (by rfl) (by rfl)).1

/-- Claim C6: evolve is total and surfaces exactly three failure
outcomes as a (False, message) pair: with no supplied path and no
qualifying registered path it returns the verbatim message "No
evolution paths available"; when the caller-supplied path fails its
can_evolve re-check it returns the conditions-not-met message; when the
chosen path qualifies but its target species name is not registered it
returns the target-not-found message; and every unsuccessful result
carries one of those three messages. -/
theorem evolve_failure_modes (sys : EvolutionSystem) (eff : Creature → Stats) (c : Creature)
    (path? : Option EvolutionPath) :
    ((sys.evolve eff c path?).1.1 = false →
      (sys.evolve eff c path?).1.2 = ("No evolution paths available") ∨
      (sys.evolve eff c path?).1.2 = ("Evolution conditions not met") ∨
      ∃ t, (sys.evolve eff c path?).1.2 = ("Target type \x27" ++ t ++ "\x27 not found")) ∧
    (path? = none → sys.get_available_evolutions c = [] →
      sys.evolve eff c path? = ((false, ("No evolution paths available")), c)) ∧
    (∀ p, path? = some p → p.can_evolve c = false →
      sys.evolve eff c path? = ((false, ("Evolution conditions not met")), c)) ∧
    (∀ p, path? = some p → p.can_evolve c = true →
      sys.creature_types.lookup p.to_type = none →
      sys.evolve eff c path?
        = ((false, ("Target type \x27" ++ p.to_type ++ "\x27 not found")), c)) := by
  rcases path? with _ | p
  · refine ⟨?_, ?_, ?_, ?_⟩
    · intro hfail
      rcases hav : sys.get_available_evolutions c with _ | ⟨q, rest⟩
      · left
        rw [evolve_none_eq, hav]
      · have hq : q.can_evolve c = true := by
          refine mem_available_can_evolve sys c ?_
          rw [hav]
          exact List.mem_cons_self q rest
        rw [evolve_none_cons sys eff c hav] at hfail ⊢
        rcases hlook : sys.creature_types.lookup q.to_type with _ | target
        · right; right
          exact ⟨q.to_type, by rw [evolve_with_no_target sys eff c hq hlook]⟩
        · rw [evolve_with_success sys eff c hq hlook] at hfail
          simp at hfail
    · intro _ hav
      rw [evolve_none_eq, hav]
    · intro p hp
      exact absurd hp (by simp)
    · intro p hp
      exact absurd hp (by simp)
  · refine ⟨?_, ?_, ?_, ?_⟩
    · intro hfail
      rw [evolve_some_eq] at hfail ⊢
      cases hc : p.can_evolve c with
      | false =>
        right; left
        rw [evolve_with_not_can sys eff c hc]
      | true =>
        rcases hlook : sys.creature_types.lookup p.to_type with _ | target
        · right; right
          exact ⟨p.to_type, by rw [evolve_with_no_target sys eff c hc hlook]⟩
        · rw [evolve_with_success sys eff c hc hlook] at hfail
          simp at hfail
    · intro h
      exact absurd h (by simp)
    · intro q hq hcq
      have hpq : p = q := by injection hq
      subst hpq
      rw [evolve_some_eq, evolve_with_not_can sys eff c hcq]
    · intro q hq hcq hlook
      have hpq : p = q := by injection hq
      subst hpq
      rw [evolve_some_eq, evolve_with_no_target sys eff c hcq hlook]

/-- Claim C6 witness: the no-paths branch evaluated on an empty registry
returns the verbatim failure pair and leaves the creature untouched. -/
theorem evolve_failure_modes_witness :
    emptySystem.evolve effBase fighterCreature none
      = ((false, ("No evolution paths available")), fighterCreature) :=
  (evolve_failure_modes emptySystem effBase fighterCreature none).2.1 rfl rfl

/-- Claim C10: whenever evolve reports failure, the creature passed in
is returned entirely unchanged - species reference, base stats,
effective stats, level and energy are exactly as before the call, for
every registry, every effective-stats collaborator and every optional
path argument. -/
theorem evolve_failure_preserves (sys : EvolutionSystem) (eff : Creature → Stats) (c : Creature)
    (path? : Option EvolutionPath) (h : (sys.evolve eff c path?).1.1 = false) :
    (sys.evolve eff c path?).2 = c := by
  rcases path? with _ | p
  · rcases hav : sys.get_available_evolutions c with _ | ⟨q, rest⟩
    · rw [evolve_none_eq, hav]
    · have hq : q.can_evolve c = true := by
        refine mem_available_can_evolve sys c ?_
        rw [hav]
        exact List.mem_cons_self q rest
      rw [evolve_none_cons sys eff c hav] at h ⊢
      rcases hlook : sys.creature_types.lookup q.to_type with _ | target
      · rw [evolve_with_no_target sys eff c hq hlook]
      · rw [evolve_with_success sys eff c hq hlook] at h
        simp at h
  · rw [evolve_some_eq] at h ⊢
    cases hc : p.can_evolve c with
    | false => rw [evolve_with_not_can sys eff c hc]
    | true =>
      rcases hlook : sys.creature_types.lookup p.to_type with _ | target
      · rw [evolve_with_no_target sys eff c hc hlook]
      · rw [evolve_with_success sys eff c hc hlook] at h
        simp at h

/-- Claim C10 witness: a failing evolve call on an empty registry
returns the input creature unchanged. -/
theorem evolve_failure_preserves_witness :
    (emptySystem.evolve effBase fighterCreature none).2 = fighterCreature :=
  evolve_failure_preserves emptySystem effBase fighterCreature none rfl
